import Mathlib

/-!
Verification of the EchoAI backend chat core: a shallow embedding of
`backend/app/services/llm_service.py` and `backend/app/api/routes/chat.py`
(plus the configuration defaults of `backend/app/core/config.py`).

Strings are modelled as `List Char` (Python operates on code points, so a
character list is a faithful model of a Python `str`).  The upstream HTTP
exchange is an input oracle: an `Upstream` value records the response status
and the body lines (with possible read-timeout points), and the service
functions are pure functions of that oracle.  Python exceptions are modelled
by the `PyExc` type; a generator that raises is modelled as the list of
values yielded before the exception, paired with the exception.
-/

namespace EchoAI

/-- Whitespace characters recognised by Python's `json` module
(space, tab, newline, carriage return). -/
def isJsonWs (c : Char) : Bool :=
  c = ' ' || c = '\t' || c = '\n' || c = '\r'

/-- Skip JSON whitespace. -/
def skipWs (cs : List Char) : List Char :=
  cs.dropWhile isJsonWs

/-- Hexadecimal digit value, for `\uXXXX` string escapes. -/
def hexVal (c : Char) : Option Nat :=
  if '0' ≤ c ∧ c ≤ '9' then some (c.toNat - '0'.toNat)
  else if 'a' ≤ c ∧ c ≤ 'f' then some (c.toNat - 'a'.toNat + 10)
  else if 'A' ≤ c ∧ c ≤ 'F' then some (c.toNat - 'A'.toNat + 10)
  else none

/-- Python values produced by `json.loads`: JSON documents.  Numbers keep
their raw source spelling (no claim depends on numeric value, only on
truthiness, which the raw spelling determines). -/
inductive Json where
  | null : Json
  | bool (b : Bool) : Json
  | num (raw : List Char) : Json
  | str (s : List Char) : Json
  | arr (xs : List Json) : Json
  | obj (fields : List (List Char × Json)) : Json

/-- Body of a JSON string literal, after the opening quote: returns the
decoded characters and the remaining input after the closing quote.
Handles the JSON escapes including `\uXXXX` (with surrogate pairs);
a lone surrogate or a raw control character fails the parse. -/
def parseStrBody : List Char → Option (List Char × List Char)
  | [] => none
  | '"' :: rest => some ([], rest)
  | '\\' :: 'u' :: a :: b :: c :: d :: rest => do
    let ha ← hexVal a
    let hb ← hexVal b
    let hc ← hexVal c
    let hd ← hexVal d
    let n := ((ha * 16 + hb) * 16 + hc) * 16 + hd
    if 0xD800 ≤ n ∧ n ≤ 0xDBFF then
      match rest with
      | '\\' :: 'u' :: e :: f :: g :: h :: rest2 => do
        let he ← hexVal e
        let hf ← hexVal f
        let hg ← hexVal g
        let hh ← hexVal h
        let m := ((he * 16 + hf) * 16 + hg) * 16 + hh
        if 0xDC00 ≤ m ∧ m ≤ 0xDFFF then
          let code := 0x10000 + (n - 0xD800) * 0x400 + (m - 0xDC00)
          let (s, r) ← parseStrBody rest2
          pure (Char.ofNat code :: s, r)
        else none
      | _ => none
    else if 0xDC00 ≤ n ∧ n ≤ 0xDFFF then none
    else do
      let (s, r) ← parseStrBody rest
      pure (Char.ofNat n :: s, r)
  | '\\' :: e :: rest => do
    let c ← match e with
      | '"' => some '"'
      | '\\' => some '\\'
      | '/' => some '/'
      | 'b' => some '\x08'
      | 'f' => some '\x0c'
      | 'n' => some '\n'
      | 'r' => some '\r'
      | 't' => some '\t'
      | _ => none
    let (s, r) ← parseStrBody rest
    pure (c :: s, r)
  | c :: rest =>
    if c.toNat < 0x20 then none
    else do
      let (s, r) ← parseStrBody rest
      pure (c :: s, r)

/-- Integer part of a JSON number: `0` or a nonzero digit followed by digits. -/
def parseIntPart : List Char → Option (List Char × List Char)
  | [] => none
  | c :: rest =>
    if c = '0' then some (['0'], rest)
    else if c.isDigit then
      some (c :: rest.takeWhile Char.isDigit, rest.dropWhile Char.isDigit)
    else none

/-- Optional fractional part `.digits` of a JSON number (consumes nothing
when absent or malformed; a malformed tail is then rejected downstream). -/
def parseFracPart (cs : List Char) : List Char × List Char :=
  match cs with
  | '.' :: rest =>
    let ds := rest.takeWhile Char.isDigit
    if ds = [] then ([], cs) else ('.' :: ds, rest.dropWhile Char.isDigit)
  | _ => ([], cs)

/-- Optional exponent part `[eE][+-]?digits` of a JSON number. -/
def parseExpPart (cs : List Char) : List Char × List Char :=
  match cs with
  | e :: rest =>
    if e = 'e' ∨ e = 'E' then
      match rest with
      | s :: rest2 =>
        if s = '+' ∨ s = '-' then
          let ds := rest2.takeWhile Char.isDigit
          if ds = [] then ([], cs)
          else (e :: s :: ds, rest2.dropWhile Char.isDigit)
        else
          let ds := rest.takeWhile Char.isDigit
          if ds = [] then ([], cs)
          else (e :: ds, rest.dropWhile Char.isDigit)
      | [] => ([], cs)
    else ([], cs)
  | [] => ([], cs)

/-- JSON number without a sign. -/
def parseUnsignedNum (cs : List Char) : Option (List Char × List Char) := do
  let (ip, r1) ← parseIntPart cs
  let (fp, r2) := parseFracPart r1
  let (ep, r3) := parseExpPart r2
  pure (ip ++ fp ++ ep, r3)

/-- JSON number with an optional leading minus sign. -/
def parseNumRaw (cs : List Char) : Option (List Char × List Char) :=
  match cs with
  | '-' :: rest => (parseUnsignedNum rest).map (fun p => ('-' :: p.1, p.2))
  | _ => parseUnsignedNum cs

/-- Comma-separated array elements up to the closing bracket, one fuel unit
per element; the element parser is passed in (one nesting level down). -/
def parseElems (pv : List Char → Option (Json × List Char)) :
    Nat → List Char → Option (List Json × List Char)
  | 0, _ => none
  | fuel + 1, cs => do
    let (v, r1) ← pv (skipWs cs)
    match skipWs r1 with
    | ',' :: r2 => do
      let (vs, r3) ← parseElems pv fuel r2
      pure (v :: vs, r3)
    | ']' :: r2 => pure ([v], r2)
    | _ => none

/-- Comma-separated `"key": value` object fields up to the closing brace. -/
def parseFields (pv : List Char → Option (Json × List Char)) :
    Nat → List Char → Option (List (List Char × Json) × List Char)
  | 0, _ => none
  | fuel + 1, cs =>
    match cs with
    | '"' :: rest => do
      let (k, r1) ← parseStrBody rest
      match skipWs r1 with
      | ':' :: r2 => do
        let (v, r3) ← pv (skipWs r2)
        match skipWs r3 with
        | ',' :: r4 => do
          let (fs, r5) ← parseFields pv fuel (skipWs r4)
          pure ((k, v) :: fs, r5)
        | '\x7d' :: r4 => pure ([(k, v)], r4)
        | _ => none
      | _ => none
    | _ => none

/-- One JSON value (no leading whitespace expected).  Mirrors Python's
`json.loads` value grammar, including the nonstandard `NaN`, `Infinity`
and `-Infinity` that Python accepts by default. -/
def parseV : Nat → List Char → Option (Json × List Char)
  | 0, _ => none
  | fuel + 1, cs =>
    match cs with
    | [] => none
    | c :: rest =>
      if c = '\x7b' then
        match skipWs rest with
        | '\x7d' :: r2 => some (.obj [], r2)
        | r2 => (parseFields (parseV fuel) fuel r2).map (fun p => (.obj p.1, p.2))
      else if c = '[' then
        match skipWs rest with
        | ']' :: r2 => some (.arr [], r2)
        | r2 => (parseElems (parseV fuel) fuel r2).map (fun p => (.arr p.1, p.2))
      else if c = '"' then
        (parseStrBody rest).map (fun p => (.str p.1, p.2))
      else if List.isPrefixOf "true".data cs then some (.bool true, cs.drop 4)
      else if List.isPrefixOf "false".data cs then some (.bool false, cs.drop 5)
      else if List.isPrefixOf "null".data cs then some (.null, cs.drop 4)
      else if List.isPrefixOf "NaN".data cs then some (.num "NaN".data, cs.drop 3)
      else if List.isPrefixOf "Infinity".data cs then
        some (.num "Infinity".data, cs.drop 8)
      else if List.isPrefixOf "-Infinity".data cs then
        some (.num "-Infinity".data, cs.drop 9)
      else (parseNumRaw cs).map (fun p => (.num p.1, p.2))

/-- Model of Python `json.loads`: parse one JSON document, allowing
surrounding whitespace and rejecting trailing garbage; `none` models a
raised `json.JSONDecodeError`. -/
def json_loads (cs : List Char) : Option Json :=
  match parseV (2 * cs.length + 2) (skipWs cs) with
  | some (v, rest) => if skipWs rest = [] then some v else none
  | none => none

/-- Python exceptions that the chat core can raise or handle:
`httpx.TimeoutException` (connect/read/write/pool), `httpx.HTTPStatusError`
(carrying the upstream status code, from `raise_for_status`), and the
builtin exceptions the delta-extraction expression can raise. -/
inductive PyExc where
  | timeoutException : PyExc
  | httpStatusError (code : Nat) : PyExc
  | indexError : PyExc
  | keyError : PyExc
  | typeError : PyExc
  | attributeError : PyExc
deriving DecidableEq

/-- Mantissa of a raw number spelling (everything before an exponent). -/
def numMantissa (raw : List Char) : List Char :=
  raw.takeWhile (fun c => ¬(c = 'e' ∨ c = 'E'))

/-- Python truthiness of a number from its raw spelling: nonzero values are
truthy.  A valid JSON number is zero exactly when its mantissa has no
nonzero digit; the letter test makes `NaN`/`Infinity` truthy as in Python. -/
def numTruthy (raw : List Char) : Bool :=
  (numMantissa raw).any (fun c => ('1' ≤ c && c ≤ '9') || c.isAlpha)

/-- Python truthiness (`if delta:`) of a decoded JSON value. -/
def truthy : Json → Bool
  | .null => false
  | .bool b => b
  | .num raw => numTruthy raw
  | .str s => !s.isEmpty
  | .arr xs => !xs.isEmpty
  | .obj fields => !fields.isEmpty

/-- Dict lookup with Python semantics: on duplicate keys `json.loads` keeps
the last occurrence, so the lookup scans left to right keeping the last hit. -/
def objLookup (fields : List (List Char × Json)) (key : List Char) : Option Json :=
  fields.foldl (fun acc f => if f.1 = key then some f.2 else acc) none

/-- Python `x.get(key, default)`: only dicts have `.get`; any other value
raises `AttributeError`. -/
def dictGet (j : Json) (key : List Char) (dflt : Json) : Except PyExc Json :=
  match j with
  | .obj fields => .ok ((objLookup fields key).getD dflt)
  | _ => .error .attributeError

/-- Python `x[0]`: first element of a list (`IndexError` when empty), first
character of a string, `KeyError` on a dict without key `0`, `TypeError` on
non-subscriptable values. -/
def subscriptZero : Json → Except PyExc Json
  | .arr (x :: _) => .ok x
  | .arr [] => .error .indexError
  | .str (c :: _) => .ok (.str [c])
  | .str [] => .error .indexError
  | .obj _ => .error .keyError
  | _ => .error .typeError

/-- The delta-extraction expression of `stream_completion`:
`chunk.get("choices", [\x7b\x7d])[0].get("delta", \x7b\x7d).get("content", "")`. -/
def extractDelta (chunk : Json) : Except PyExc Json := do
  let choices ← dictGet chunk "choices".data (.arr [.obj []])
  let first ← subscriptZero choices
  let delta ← dictGet first "delta".data (.obj [])
  dictGet delta "content".data (.str [])

/-- Whitespace stripped by Python `str.strip()` (ASCII range). -/
def isPySpace (c : Char) : Bool :=
  c = ' ' || c = '\t' || c = '\n' || c = '\r' || c = '\x0b' || c = '\x0c'

/-- Model of Python `str.strip()`: drop whitespace from both ends. -/
def pyStrip (cs : List Char) : List Char :=
  ((cs.dropWhile isPySpace).reverse.dropWhile isPySpace).reverse

/-- Python `str(x)` on a value nested inside a container (`repr`): strings
are quoted; containers recurse.  Fuel-based so that the definition is
structural; `pyStr` supplies sufficient fuel via `jsonDepth`. -/
def pyReprFuel : Nat → Json → List Char
  | _, .null => "None".data
  | _, .bool true => "True".data
  | _, .bool false => "False".data
  | _, .num raw => raw
  | _, .str s => '\'' :: (s ++ ['\''])
  | 0, .arr _ => []
  | 0, .obj _ => []
  | fuel + 1, .arr xs =>
    '[' :: List.intercalate ", ".data (xs.map (pyReprFuel fuel)) ++ [']']
  | fuel + 1, .obj fields =>
    '\x7b' ::
      List.intercalate ", ".data
        (fields.map (fun f => '\'' :: (f.1 ++ ['\''] ++ ": ".data ++ pyReprFuel fuel f.2))) ++
      ['\x7d']

mutual

/-- Nesting depth of a JSON value (fuel bound for `pyReprFuel`). -/
def jsonDepth : Json → Nat
  | .null => 1
  | .bool _ => 1
  | .num _ => 1
  | .str _ => 1
  | .arr xs => jsonDepthList xs + 1
  | .obj fields => jsonDepthFieldList fields + 1

/-- Depth of a list of JSON values. -/
def jsonDepthList : List Json → Nat
  | [] => 0
  | x :: xs => max (jsonDepth x) (jsonDepthList xs)

/-- Depth of a list of JSON object fields. -/
def jsonDepthFieldList : List (List Char × Json) → Nat
  | [] => 0
  | f :: fs => max (jsonDepth f.2) (jsonDepthFieldList fs)

end

/-- Python `str(x)` as used by the f-string `f"data: \x7bchunk\x7d"`: a string
renders as its own characters; other values via their repr. -/
def pyStr : Json → List Char
  | .str s => s
  | j => pyReprFuel (jsonDepth j) j

/-- One observable event of the upstream response body, as seen by
`resp.aiter_lines()`: either the next line, or an `httpx.ReadTimeout`
raised while waiting for it. -/
inductive UpEvent where
  | line (cs : List Char) : UpEvent
  | readTimeout : UpEvent

/-- The upstream HTTP exchange as an input oracle: either the connection
attempt times out, or a response arrives with a status code and a body. -/
inductive Upstream where
  | connectTimeout : Upstream
  | response (status : Nat) (events : List UpEvent) : Upstream

/-- The `async for line in resp.aiter_lines()` loop body of
`stream_completion` (`llm_service.py` lines 85-96): skip lines without the
`data: ` prefix, stop on `[DONE]`, skip lines whose payload fails to parse
(`except json.JSONDecodeError: continue`), yield truthy extracted deltas,
and abort with any other exception raised by the extraction.  The result is
the list of yielded fragments and the exception, if any, that ended the
loop. -/
def processEvents : List UpEvent → List Json × Option PyExc
  | [] => ([], none)
  | .readTimeout :: _ => ([], some .timeoutException)
  | .line l :: rest =>
    if List.isPrefixOf "data: ".data l then
      let data := pyStrip (l.drop 6)
      if data = "[DONE]".data then ([], none)
      else
        match json_loads data with
        | none => processEvents rest
        | some chunk =>
          match extractDelta chunk with
          | .error e => ([], some e)
          | .ok delta =>
            if truthy delta then
              ((processEvents rest).1.cons delta, (processEvents rest).2)
            else processEvents rest
    else processEvents rest

/-- Is the upstream status a success for `httpx`?  `raise_for_status`
raises `HTTPStatusError` exactly when the status is outside 2xx. -/
def is2xx (status : Nat) : Bool :=
  200 ≤ status && status ≤ 299

/-- `stream_completion` (`llm_service.py` lines 59-96) as a function of the
upstream oracle: a connect timeout raises before any yield;
`resp.raise_for_status()` raises `HTTPStatusError` on a non-2xx status
before the line loop; otherwise the line loop runs. -/
def stream_completion : Upstream → List Json × Option PyExc
  | .connectTimeout => ([], some .timeoutException)
  | .response status events =>
    if is2xx status then processEvents events
    else ([], some (.httpStatusError status))

/-- Python `"".join(parts)`: concatenates string parts; raises `TypeError`
on the first non-string part. -/
def joinParts : List Json → Except PyExc (List Char)
  | [] => .ok []
  | .str s :: rest => (joinParts rest).map (fun t => s ++ t)
  | _ :: _ => .error .typeError

/-- The fallback sentence of `get_completion`. -/
def fallback_text : List Char := "I understand. Can you tell me more?".data

/-- `get_completion` (`llm_service.py` lines 99-110): drain the stream into
`parts`, propagating any exception the stream raises; then
`text = "".join(parts).strip() or fallback` and return `(text, len(parts))`. -/
def get_completion (u : Upstream) : Except PyExc (List Char × Nat) :=
  match stream_completion u with
  | (_, some e) => .error e
  | (parts, none) =>
    match joinParts parts with
    | .error e => .error e
    | .ok s =>
      .ok ((if pyStrip s = [] then fallback_text else pyStrip s), parts.length)

/-- The SSE frame the streaming route emits for one fragment:
`f"data: \x7bchunk\x7d\n\n"`. -/
def fragFrame (f : Json) : List Char :=
  "data: ".data ++ (pyStr f ++ "\n\n".data)

/-- The success terminator frame `data: [DONE]\n\n`. -/
def doneFrame : List Char := "data: [DONE]\n\n".data

/-- The failure terminator frame `f"data: [ERROR] \x7bexc\x7d\n\n"`. -/
def errorFrame (msg : List Char) : List Char :=
  "data: [ERROR] ".data ++ (msg ++ "\n\n".data)

/-- `_event_generator` of the streaming route (`chat.py` lines 50-62):
forward each fragment as a `data: ` frame, then `data: [DONE]\n\n`; if the
stream raises at any point, emit one `data: [ERROR] ...\n\n` frame instead.
`excStr` models Python's `str(exc)` (the message text of the exception,
which depends on runtime request details and is therefore a parameter). -/
def _event_generator (excStr : PyExc → List Char) (u : Upstream) : List (List Char) :=
  match stream_completion u with
  | (frags, none) => frags.map fragFrame ++ [doneFrame]
  | (frags, some e) => frags.map fragFrame ++ [errorFrame (excStr e)]

/-- The model string hard-coded in the aggregated route's response
(`chat.py` line 33). -/
def chat_model_literal : List Char := "Qwen2.5-1.5B-Instruct".data

/-- Outcome of the aggregated route: either a `ChatResponse` body or an
`HTTPException` with a status code and detail string. -/
inductive ChatOutcome where
  | response (text : List Char) (model : List Char) (tokens_used : Nat) : ChatOutcome
  | httpError (status : Nat) (detail : List Char) : ChatOutcome
deriving DecidableEq

/-- Decimal rendering of a status code, for the 502 detail f-string. -/
def natChars (n : Nat) : List Char := (Nat.repr n).data

/-- The aggregated route handler `chat` (`chat.py` lines 24-42): on success
wrap the text, the hard-coded model literal and the fragment count in a
`ChatResponse`; map `httpx.TimeoutException` to 504, `httpx.HTTPStatusError`
to 502 with the upstream code in the detail, and any other exception to a
generic 502. -/
def chat (excStr : PyExc → List Char) (u : Upstream) : ChatOutcome :=
  match get_completion u with
  | .ok (text, tokens) => .response text chat_model_literal tokens
  | .error .timeoutException =>
    .httpError 504 "LLM service timed out. Please try again.".data
  | .error (.httpStatusError code) =>
    .httpError 502 ("LLM returned ".data ++ natChars code)
  | .error e =>
    .httpError 502 ("LLM service error: ".data ++ excStr e)

/-- One entry of the request history (`schemas.py`: `ChatMessage`). -/
structure ChatMessage where
  role : List Char
  content : List Char
deriving DecidableEq

/-- One entry of the outbound `messages` array (a Python dict with `role`
and `content` keys). -/
structure MsgDict where
  role : List Char
  content : List Char
deriving DecidableEq

/-- The fixed system instruction of `_build_messages` (two adjacent Python
string literals, concatenated). -/
def system_content : List Char :=
  ("You are a helpful voice assistant. Keep responses concise " ++
    "(1-2 sentences max) for natural conversation. Be friendly and direct.").data

/-- `_build_messages` (`llm_service.py` lines 39-56): the system turn, then
`history[-6:]` in order, then the new user message.  Python `history[-6:]`
takes the last six entries (all of them when fewer), which for a list of
length `N` is `drop (N - 6)` under truncated subtraction. -/
def _build_messages (message : List Char) (history : List ChatMessage) : List MsgDict :=
  ⟨"system".data, system_content⟩ ::
    ((history.drop (history.length - 6)).map (fun m => ⟨m.role, m.content⟩) ++
      [⟨"user".data, message⟩])

/-- The configuration fields of `config.py` that the payload uses.
Temperature carries no arithmetic in the core, so an exact rational stands
in for the Python float. -/
structure Settings where
  llm_api_url : List Char
  llm_model : List Char
  llm_max_tokens : Nat
  llm_temperature : Rat

/-- The default model name of `config.py` line 31
(`os.getenv("LLM_MODEL", "Qwen2.5-1.5B-Instruct")`). -/
def default_llm_model : List Char := "Qwen2.5-1.5B-Instruct".data

/-- The outbound request body built by `stream_completion`
(`llm_service.py` lines 69-75). -/
structure Payload where
  model : List Char
  messages : List MsgDict
  max_tokens : Nat
  temperature : Rat
  stream : Bool

/-- The `payload` dict of `stream_completion`: the model comes from the
settings; explicit `max_tokens`/`temperature` arguments override the
configured defaults. -/
def stream_payload (s : Settings) (message : List Char) (history : List ChatMessage)
    (max_tokens : Option Nat) (temperature : Option Rat) : Payload :=
  { model := s.llm_model
    messages := _build_messages message history
    max_tokens := max_tokens.getD s.llm_max_tokens
    temperature := temperature.getD s.llm_temperature
    stream := true }

/-! ## Helper lemmas -/

/-- `dropWhile` is idempotent. -/
theorem dropWhile_self {α : Type} (p : α → Bool) (l : List α) :
    List.dropWhile p (List.dropWhile p l) = List.dropWhile p l := by
  induction l with
  | nil => rfl
  | cons a t ih =>
    by_cases h : p a
    · simp [List.dropWhile_cons, h, ih]
    · simp [List.dropWhile_cons, h]

/-- `dropWhile` over a list ending in a kept element keeps that element
last. -/
theorem dropWhile_append_singleton {α : Type} {p : α → Bool} {c : α}
    (hc : p c = false) (l : List α) :
    ∃ s, List.dropWhile p (l ++ [c]) = s ++ [c] := by
  induction l with
  | nil => exact ⟨[], by simp [List.dropWhile_cons, hc]⟩
  | cons a t ih =>
    by_cases h : p a
    · simpa [List.dropWhile_cons, h] using ih
    · exact ⟨a :: t, by simp [List.dropWhile_cons, h]⟩

/-- Stripping is idempotent: a stripped string strips to itself. -/
theorem pyStrip_idem (l : List Char) : pyStrip (pyStrip l) = pyStrip l := by
  cases hd : List.dropWhile isPySpace l with
  | nil =>
    have h0 : pyStrip l = [] := by unfold pyStrip; rw [hd]; rfl
    rw [h0]; rfl
  | cons c t =>
    have hc : isPySpace c = false := by
      have h2 := List.head?_dropWhile_not isPySpace l
      rw [hd] at h2
      exact h2
    obtain ⟨s, hs⟩ := dropWhile_append_singleton hc t.reverse
    have key : pyStrip l = c :: s.reverse := by
      unfold pyStrip
      rw [hd, List.reverse_cons, hs, List.reverse_append]
      rfl
    rw [key]
    unfold pyStrip
    rw [List.dropWhile_cons, hc]
    simp only [Bool.false_eq_true, if_false, List.reverse_cons, List.reverse_reverse]
    rw [← hs, dropWhile_self, hs, List.reverse_append]
    rfl

/-- A successful `"".join(parts)` is the in-order concatenation of the
string parts (as also rendered by the streaming frames). -/
theorem joinParts_flatten (frags : List Json) (s : List Char)
    (h : joinParts frags = .ok s) : (frags.map pyStr).flatten = s := by
  induction frags generalizing s with
  | nil =>
    simp only [joinParts] at h
    cases h
    rfl
  | cons a t ih =>
    cases a with
    | str str =>
      cases ht : joinParts t with
      | error e => rw [joinParts, ht] at h; cases h
      | ok t' =>
        rw [joinParts, ht] at h
        cases h
        simp [pyStr, ih t' ht]
    | null => cases h
    | bool b => cases h
    | num raw => cases h
    | arr xs => cases h
    | obj fields => cases h

/-- The error terminator frame is never the success terminator frame,
whatever the exception message. -/
theorem errorFrame_ne_doneFrame (m : List Char) : errorFrame m ≠ doneFrame := by
  intro h
  unfold errorFrame doneFrame at h
  rw [show ("data: [DONE]\n\n".data : List Char) =
      "data: [DONE]\n\n".data ++ [] from by simp] at h
  have hlen : ("data: [ERROR] ".data : List Char).length =
      ("data: [DONE]\n\n".data : List Char).length := by decide
  exact absurd (List.append_inj h hlen).1 (by decide)

/-! ## Concrete upstream inputs used by witnesses and counterexamples -/

/-- An SSE line whose delta content is `hi`. -/
def lineHi : List Char :=
  "data: \x7b\"choices\":[\x7b\"delta\":\x7b\"content\":\"hi\"\x7d\x7d]\x7d".data

/-- An SSE line whose payload parses but has an empty `choices` array. -/
def lineEmptyChoices : List Char := "data: \x7b\"choices\":[]\x7d".data

/-- An SSE line whose delta content is the literal text `[DONE]`. -/
def lineDoneContent : List Char :=
  "data: \x7b\"choices\":[\x7b\"delta\":\x7b\"content\":\"[DONE]\"\x7d\x7d]\x7d".data

/-- An SSE line whose delta content is a single space. -/
def lineSpace : List Char :=
  "data: \x7b\"choices\":[\x7b\"delta\":\x7b\"content\":\" \"\x7d\x7d]\x7d".data

/-- A concrete exception-message renderer (the inline error frame carries
`str(exc)`, whose exact text is runtime-dependent; counterexamples fix it
to the empty message). -/
def excStr0 : PyExc → List Char := fun _ => []

/-! ## Claims -/

/-- Claim C2: the SSE reader ignores lines without the `data: ` prefix,
stops iteration (yielding nothing) on a `data: ` line whose stripped
payload is `[DONE]`, and skips, without raising, a `data: ` line whose
payload is not valid JSON.  (The `[DONE]` payload is itself not valid
JSON; it is governed by the sentinel clause, so the invalid-JSON clause
speaks of the other payloads.) -/
theorem C2_sse_line_handling (l : List Char) (rest : List UpEvent) :
    (List.isPrefixOf "data: ".data l = false →
      processEvents (.line l :: rest) = processEvents rest) ∧
    (List.isPrefixOf "data: ".data l = true →
      pyStrip (l.drop 6) = "[DONE]".data →
      processEvents (.line l :: rest) = ([], none)) ∧
    (List.isPrefixOf "data: ".data l = true →
      pyStrip (l.drop 6) ≠ "[DONE]".data →
      json_loads (pyStrip (l.drop 6)) = none →
      processEvents (.line l :: rest) = processEvents rest) := by
  refine ⟨?_, ?_, ?_⟩
  · intro h
    simp [processEvents, h]
  · intro h hd
    simp [processEvents, h, hd]
  · intro h hd hj
    simp [processEvents, h, hd, hj]

/-- Witness for C2 at three concrete lines: a non-`data: ` line, the
`[DONE]` sentinel (followed by a line that would yield a fragment), and a
`data: ` line with malformed JSON. -/
theorem C2_witness :
    processEvents [.line "event: ping".data] = processEvents [] ∧
    processEvents [.line "data: [DONE]".data, .line lineHi] = ([], none) ∧
    processEvents [.line "data: \x7boops".data] = processEvents [] := by
  refine ⟨?_, ?_, ?_⟩
  · exact (C2_sse_line_handling "event: ping".data []).1 (by decide)
  · exact (C2_sse_line_handling "data: [DONE]".data [.line lineHi]).2.1
      (by decide) (by decide)
  · exact (C2_sse_line_handling "data: \x7boops".data []).2.2
      (by decide) (by decide) (by rfl)

/-- Claim C3: the outbound messages list is one fixed system turn, then
exactly `min(N, 6)` history turns taken from the tail of the history in
original order, then the new user message last, for a total length of
`min(N, 6) + 2`; the builder is a pure function (its embedding is a plain
function of its inputs, with no effect type). -/
theorem C3_build_messages_shape (cfg : Settings) (message : List Char)
    (history : List ChatMessage) (mt : Option Nat) (tp : Option Rat) :
    (stream_payload cfg message history mt tp).messages = _build_messages message history ∧
    _build_messages message history =
      ⟨"system".data, system_content⟩ ::
        ((history.drop (history.length - 6)).map (fun m => ⟨m.role, m.content⟩) ++
          [⟨"user".data, message⟩]) ∧
    (history.drop (history.length - 6)).length = min history.length 6 ∧
    List.IsSuffix (history.drop (history.length - 6)) history ∧
    (_build_messages message history).length = min history.length 6 + 2 := by
  refine ⟨rfl, rfl, ?_, List.drop_suffix _ _, ?_⟩
  · rw [List.length_drop]
    omega
  · simp [_build_messages, List.length_drop]
    omega

/-- Claim C5: a non-2xx upstream status makes the stream reader fail with a
status error carrying that code, with no fragment yielded before the
failure, whatever SSE data the body holds. -/
theorem C5_non2xx_no_fragments (status : Nat) (events : List UpEvent)
    (h : ¬(200 ≤ status ∧ status ≤ 299)) :
    stream_completion (.response status events) = ([], some (.httpStatusError status)) := by
  have h2 : is2xx status = false := by
    unfold is2xx
    by_cases h1 : 200 ≤ status
    · by_cases h3 : status ≤ 299
      · exact absurd ⟨h1, h3⟩ h
      · simp [h3]
    · simp [h1]
  simp [stream_completion, h2]

/-- Witness for C5: a 500 response whose body even contains a well-formed
fragment line still yields nothing and fails with status 500. -/
theorem C5_witness :
    stream_completion (.response 500 [.line lineHi]) =
      ([], some (.httpStatusError 500)) :=
  C5_non2xx_no_fragments 500 [.line lineHi] (by omega)

/-- An SSE line with an empty `delta` object (no `content` key). -/
def lineNoContent : List Char :=
  "data: \x7b\"choices\":[\x7b\"delta\":\x7b\x7d\x7d]\x7d".data

/-- The decoded chunk of `lineHi`. -/
def chunkHi : Json :=
  .obj [("choices".data,
    .arr [.obj [("delta".data, .obj [("content".data, .str "hi".data)])]])]

/-- The decoded chunk of `lineNoContent`. -/
def chunkNoContent : Json :=
  .obj [("choices".data, .arr [.obj [("delta".data, .obj [])]])]

/-- The decoded chunk of `lineEmptyChoices`. -/
def chunkEmptyChoices : Json := .obj [("choices".data, .arr [])]

/-- Counterexample for claim C4 as stated: the payload of
`data: \x7b"choices":[]\x7d` parses successfully as JSON, yet the reader
aborts the stream with an `IndexError` (the `except` clause only catches
`json.JSONDecodeError`, and `[\x7b\x7d][0]` defends only against a missing
`choices` key, not an empty `choices` array), so a following well-formed
fragment line is never reached. -/
theorem C4_counterexample :
    (json_loads (pyStrip (lineEmptyChoices.drop 6))).isSome = true ∧
    processEvents [.line lineEmptyChoices, .line lineHi] =
      ([], some .indexError) :=
  ⟨rfl, rfl⟩

/-- Claim C4 as amended: for a `data: ` line whose payload parses as JSON,
the reader yields the extracted `choices[0].delta.content` when the
extraction succeeds with a truthy value, skips the line when the extraction
succeeds with a falsy value (absent or empty content), and aborts the whole
stream with an uncaught exception when the extraction itself raises — which
it does for an empty `choices` array (`IndexError`), a non-object payload
(`AttributeError`/`TypeError`), and similar shape mismatches. -/
theorem C4_extraction_behavior (l : List Char) (rest : List UpEvent) (chunk : Json)
    (hp : List.isPrefixOf "data: ".data l = true)
    (hd : pyStrip (l.drop 6) ≠ "[DONE]".data)
    (hj : json_loads (pyStrip (l.drop 6)) = some chunk) :
    (∀ d, extractDelta chunk = .ok d → truthy d = true →
      processEvents (.line l :: rest) =
        (d :: (processEvents rest).1, (processEvents rest).2)) ∧
    (∀ d, extractDelta chunk = .ok d → truthy d = false →
      processEvents (.line l :: rest) = processEvents rest) ∧
    (∀ e, extractDelta chunk = .error e →
      processEvents (.line l :: rest) = ([], some e)) := by
  refine ⟨?_, ?_, ?_⟩
  · intro d hx ht
    simp [processEvents, hp, hd, hj, hx, ht]
  · intro d hx ht
    simp [processEvents, hp, hd, hj, hx, ht]
  · intro e hx
    simp [processEvents, hp, hd, hj, hx]

/-- Witness for the amended C4 at three concrete lines: a `content` of
`hi` is yielded, an empty `delta` object is skipped, and an empty `choices`
array aborts with `IndexError`. -/
theorem C4_witness :
    processEvents [.line lineHi] = ([.str "hi".data], none) ∧
    processEvents [.line lineNoContent] = ([], none) ∧
    processEvents [.line lineEmptyChoices] = ([], some .indexError) := by
  refine ⟨?_, ?_, ?_⟩
  · exact (C4_extraction_behavior lineHi [] chunkHi (by decide) (by decide) rfl).1
      (.str "hi".data) rfl rfl
  · exact (C4_extraction_behavior lineNoContent [] chunkNoContent
      (by decide) (by decide) rfl).2.1 (.str []) rfl rfl
  · exact (C4_extraction_behavior lineEmptyChoices [] chunkEmptyChoices
      (by decide) (by decide) rfl).2.2 .indexError rfl

/-- Claim C6: the aggregated handler maps an upstream timeout to a 504
outcome and an upstream non-2xx status failure to a 502 outcome whose
detail carries the upstream code; on success it returns the aggregated
text, the model identifier and the fragment count. -/
theorem C6_handler_error_mapping (excStr : PyExc → List Char) (u : Upstream)
    (frags : List Json) :
    (stream_completion u = (frags, some .timeoutException) →
      chat excStr u = .httpError 504 "LLM service timed out. Please try again.".data) ∧
    (∀ c, stream_completion u = (frags, some (.httpStatusError c)) →
      chat excStr u = .httpError 502 ("LLM returned ".data ++ natChars c)) ∧
    (∀ t k, get_completion u = .ok (t, k) →
      chat excStr u = .response t chat_model_literal k) := by
  refine ⟨?_, ?_, ?_⟩
  · intro h
    simp [chat, get_completion, h]
  · intro c h
    simp [chat, get_completion, h]
  · intro t k h
    simp [chat, h]

/-- Witness for C6: a connect timeout maps to 504, a 500 upstream response
maps to 502 with detail `LLM returned 500`, and a successful stream returns
the text, the model literal and the count. -/
theorem C6_witness :
    chat excStr0 .connectTimeout =
      .httpError 504 "LLM service timed out. Please try again.".data ∧
    chat excStr0 (.response 500 []) =
      .httpError 502 "LLM returned 500".data ∧
    chat excStr0 (.response 200 [.line lineHi]) =
      .response "hi".data chat_model_literal 1 := by
  refine ⟨?_, ?_, ?_⟩
  · exact (C6_handler_error_mapping excStr0 .connectTimeout []).1 rfl
  · exact (C6_handler_error_mapping excStr0 (.response 500 []) []).2.1 500 rfl
  · exact (C6_handler_error_mapping excStr0 (.response 200 [.line lineHi]) []).2.2
      "hi".data 1 rfl

/-- Claim C7 as amended: the streaming body is always the fragment frames
followed by exactly one terminator; the terminator is `data: [DONE]\n\n`
exactly on success and a `data: [ERROR] ...\n\n` frame (never equal to the
`[DONE]` frame) exactly on failure.  However, a fragment whose own text is
`[DONE]` produces a byte-identical `data: [DONE]\n\n` frame earlier in the
body, so on failure the body as a whole need not be free of `[DONE]`
frames (see the counterexample). -/
theorem C7_generator_framing (excStr : PyExc → List Char) (u : Upstream)
    (frags : List Json) (e : PyExc) :
    (stream_completion u = (frags, none) →
      _event_generator excStr u = frags.map fragFrame ++ [doneFrame]) ∧
    (stream_completion u = (frags, some e) →
      _event_generator excStr u = frags.map fragFrame ++ [errorFrame (excStr e)] ∧
      errorFrame (excStr e) ≠ doneFrame) := by
  constructor
  · intro h
    simp [_event_generator, h]
  · intro h
    exact ⟨by simp [_event_generator, h], errorFrame_ne_doneFrame _⟩

/-- Counterexample for claim C7 as stated: when the upstream sends a
fragment whose text is `[DONE]` and then times out, the failure body ends
with the error frame yet still contains a frame equal to
`data: [DONE]\n\n`, refuting "contains no `[DONE]` frame". -/
theorem C7_counterexample :
    stream_completion (.response 200 [.line lineDoneContent, .readTimeout]) =
      ([.str "[DONE]".data], some .timeoutException) ∧
    (_event_generator excStr0
        (.response 200 [.line lineDoneContent, .readTimeout])).getLast? =
      some (errorFrame []) ∧
    doneFrame ∈
      _event_generator excStr0 (.response 200 [.line lineDoneContent, .readTimeout]) := by
  refine ⟨rfl, rfl, ?_⟩
  decide

/-- Witness for the amended C7: a one-fragment success body is the fragment
frame plus the `[DONE]` terminator; a connect timeout produces only the
error frame, which differs from the `[DONE]` frame. -/
theorem C7_witness :
    _event_generator excStr0 (.response 200 [.line lineHi]) =
      [Json.str "hi".data].map fragFrame ++ [doneFrame] ∧
    _event_generator excStr0 .connectTimeout =
      [errorFrame (excStr0 .timeoutException)] ∧
    errorFrame (excStr0 .timeoutException) ≠ doneFrame := by
  have h2 := (C7_generator_framing excStr0 .connectTimeout [] .timeoutException).2 rfl
  exact ⟨(C7_generator_framing excStr0 (.response 200 [.line lineHi])
    [.str "hi".data] .timeoutException).1 rfl, by simpa using h2.1, h2.2⟩

/-- Claim C8: a stream that yields zero fragments aggregates to the fixed
fallback sentence with `fragment_count = 0`; more generally, whenever the
concatenation of all fragments strips to the empty string, the fallback
sentence is substituted. -/
theorem C8_fallback (u : Upstream) (frags : List Json) (s : List Char) :
    (stream_completion u = ([], none) →
      get_completion u = .ok (fallback_text, 0)) ∧
    (stream_completion u = (frags, none) → joinParts frags = .ok s →
      pyStrip s = [] → get_completion u = .ok (fallback_text, frags.length)) := by
  constructor
  · intro h
    simp [get_completion, h, joinParts, pyStrip]
  · intro h hj hs
    simp [get_completion, h, hj, hs]

/-- Witness for C8: the empty upstream body yields the fallback with count
zero, and a single all-whitespace fragment yields the fallback with count
one. -/
theorem C8_witness :
    get_completion (.response 200 []) = .ok (fallback_text, 0) ∧
    get_completion (.response 200 [.line lineSpace]) = .ok (fallback_text, 1) :=
  ⟨(C8_fallback (.response 200 []) [] []).1 rfl,
    (C8_fallback (.response 200 [.line lineSpace]) [.str [' ']] [' ']).2 rfl rfl rfl⟩

/-- Counterexample for claim C1 as stated: on an upstream response with no
data lines, the streaming handler emits no fragments (their concatenation
is empty) while the aggregated handler returns the non-empty fallback
sentence, so the two delivery modes do not return the same text. -/
theorem C1_counterexample :
    get_completion (.response 200 []) = .ok (fallback_text, 0) ∧
    ((stream_completion (.response 200 [])).1.map pyStr).flatten = [] ∧
    fallback_text ≠ [] :=
  ⟨rfl, rfl, by decide⟩

/-- Claim C1 as amended: whenever the aggregated handler succeeds, the
streaming handler for the same input emits exactly the fragment frames
followed by the `[DONE]` terminator, and the aggregated text equals the
in-order concatenation of the streamed fragment texts after stripping
leading/trailing whitespace, with the fixed fallback sentence substituted
when the stripped concatenation is empty. -/
theorem C1_stream_aggregate_relation (excStr : PyExc → List Char) (u : Upstream)
    (t : List Char) (k : Nat) (h : get_completion u = .ok (t, k)) :
    ∃ frags s, stream_completion u = (frags, none) ∧
      joinParts frags = .ok s ∧
      _event_generator excStr u = frags.map fragFrame ++ [doneFrame] ∧
      (frags.map pyStr).flatten = s ∧
      t = (if pyStrip s = [] then fallback_text else pyStrip s) ∧
      k = frags.length := by
  cases hu : stream_completion u with
  | mk frags err =>
    cases err with
    | some e =>
      simp [get_completion, hu] at h
    | none =>
      cases hjs : joinParts frags with
      | error e =>
        simp [get_completion, hu, hjs] at h
      | ok s =>
        simp only [get_completion, hu, hjs, Except.ok.injEq, Prod.mk.injEq] at h
        refine ⟨frags, s, rfl, hjs, ?_, joinParts_flatten frags s hjs,
          h.1.symm, h.2.symm⟩
        simp [_event_generator, hu]

/-- Witness for the amended C1 at a one-fragment upstream response whose
aggregation succeeds with text `hi`. -/
theorem C1_witness :
    ∃ frags s, stream_completion (.response 200 [.line lineHi]) = (frags, none) ∧
      joinParts frags = .ok s ∧
      _event_generator excStr0 (.response 200 [.line lineHi]) =
        frags.map fragFrame ++ [doneFrame] ∧
      (frags.map pyStr).flatten = s ∧
      "hi".data = (if pyStrip s = [] then fallback_text else pyStrip s) ∧
      1 = frags.length :=
  C1_stream_aggregate_relation excStr0 (.response 200 [.line lineHi]) "hi".data 1 rfl

/-- Claim C9: the response model field of every successful aggregated
request is the hard-coded literal `Qwen2.5-1.5B-Instruct`, while the
outbound payload's model comes from the configuration, so a configuration
whose model name differs makes the two disagree. -/
theorem C9_model_literal (excStr : PyExc → List Char) (cfg : Settings)
    (message : List Char) (history : List ChatMessage)
    (mt : Option Nat) (tp : Option Rat) :
    (stream_payload cfg message history mt tp).model = cfg.llm_model ∧
    (∀ u t m k, chat excStr u = .response t m k → m = chat_model_literal) ∧
    (cfg.llm_model ≠ chat_model_literal →
      (stream_payload cfg message history mt tp).model ≠ chat_model_literal) := by
  refine ⟨rfl, ?_, ?_⟩
  · intro u t m k h
    cases hg : get_completion u with
    | ok p =>
      obtain ⟨t0, k0⟩ := p
      simp only [chat, hg, ChatOutcome.response.injEq] at h
      exact h.2.1.symm
    | error e =>
      cases e <;> simp [chat, hg] at h
  · intro hne
    simpa [stream_payload] using hne

/-- Witness for C9: with a configuration whose model name is
`other-model`, the outbound payload carries `other-model` while the
response literal stays `Qwen2.5-1.5B-Instruct`, and they disagree. -/
theorem C9_witness :
    (stream_payload ⟨"http://llm.local".data, "other-model".data, 150, 1⟩
        "hello".data [] none none).model = "other-model".data ∧
    (stream_payload ⟨"http://llm.local".data, "other-model".data, 150, 1⟩
        "hello".data [] none none).model ≠ chat_model_literal := by
  refine ⟨?_, ?_⟩
  · exact (C9_model_literal excStr0
      ⟨"http://llm.local".data, "other-model".data, 150, 1⟩
      "hello".data [] none none).1
  · exact (C9_model_literal excStr0
      ⟨"http://llm.local".data, "other-model".data, 150, 1⟩
      "hello".data [] none none).2.2 (by decide)

/-- Claim C10: the aggregated count equals the number of fragments pulled
even when the fallback is substituted; one or more all-whitespace
fragments give the fallback text with a positive count; and the returned
text never carries leading or trailing whitespace. -/
theorem C10_count_and_strip (u : Upstream) (frags : List Json) (s : List Char)
    (h : stream_completion u = (frags, none)) (hj : joinParts frags = .ok s) :
    get_completion u =
      .ok ((if pyStrip s = [] then fallback_text else pyStrip s), frags.length) ∧
    (frags ≠ [] → pyStrip s = [] →
      get_completion u = .ok (fallback_text, frags.length) ∧ 0 < frags.length) ∧
    (∀ t k, get_completion u = .ok (t, k) → pyStrip t = t ∧ k = frags.length) := by
  have hmain : get_completion u =
      .ok ((if pyStrip s = [] then fallback_text else pyStrip s), frags.length) := by
    simp [get_completion, h, hj]
  refine ⟨hmain, ?_, ?_⟩
  · intro hne hs
    constructor
    · rw [hmain]
      simp [hs]
    · cases frags with
      | nil => exact absurd rfl hne
      | cons a l => simp
  · intro t k hk
    rw [hmain] at hk
    simp only [Except.ok.injEq, Prod.mk.injEq] at hk
    obtain ⟨ht, hkk⟩ := hk
    refine ⟨?_, hkk.symm⟩
    rw [← ht]
    by_cases hs : pyStrip s = []
    · simp only [hs, if_pos]
      decide
    · simp only [hs, if_neg, if_false]
      exact pyStrip_idem s

/-- Witness for C10 at a stream with one all-whitespace fragment: the text
is the fallback, the count is one (positive), and the returned text strips
to itself. -/
theorem C10_witness :
    get_completion (.response 200 [.line lineSpace]) = .ok (fallback_text, 1) ∧
    0 < (1 : Nat) ∧
    pyStrip fallback_text = fallback_text := by
  have h := C10_count_and_strip (.response 200 [.line lineSpace]) [.str [' ']] [' '] rfl rfl
  have h4 := h.2.1 (List.cons_ne_nil _ _) rfl
  exact ⟨h4.1, h4.2, (h.2.2 fallback_text 1 h4.1).1⟩

end EchoAI
